import Mathlib

/-!
Formal model of the VHDL semantic homograph checker
(`vhdl_parser/src/semantic.rs`).

The Rust module walks an already-parsed VHDL design and reports duplicate
declarations ("homographs") and bad library clauses.  This file gives a
shallow embedding of that module: the AST fragments the checker inspects,
the `DeclarativeRegion` scope structure with its `add` algorithm, the
region builders, the recursive unit/statement walkers and the `Analyzer`
orchestration, all as executable Lean functions, followed by theorems
about their behaviour.

Modelling conventions:
* Rust `Symbol` (interned name handle) is modelled as `String`;
  source positions (`SrcPos`) are modelled as `Nat` tags.
* The Rust checker pushes diagnostics into a mutable `MessageHandler`
  sink; here every check function returns the list of messages it pushes,
  in push order, and region-building functions return the updated region
  paired with the messages.
* `FnvHashMap<Designator, DeclarativeItem>` is modelled as an association
  list with at most one binding per key (`add` only appends on a vacant
  key and replaces in place on an occupied key, as the Rust `Entry` API
  does).
* AST payloads the checker never reads (types, expressions, modes,
  generate conditions, labels' text, ...) are omitted or collapsed to
  `Option Unit` where only `is_some`/`is_none` is consulted.
-/

namespace Vhdl

/-- A value together with its source position (`WithPos<T>` in the Rust
AST); positions are abstract `Nat` tags. -/
structure WithPos (α : Type) where
  item : α
  pos : Nat
deriving DecidableEq, Repr

/-- An identifier with its position (`Ident = WithPos<Symbol>`). -/
abbrev Ident := WithPos String

/-- Identity key of a declared name (`ast::Designator`): plain
identifier, operator symbol, or character literal (a Latin-1 byte). -/
inductive Designator where
  | identifier (s : String)
  | operatorSymbol (s : String)
  | character (b : Nat)
deriving DecidableEq, Repr

/-- The single-quote character, used when rendering diagnostics. -/
def squote : String := String.singleton (Char.ofNat 39)

/-- `Display for Designator`: identifiers print bare, operator symbols
in double quotes, character literals in single quotes. -/
def Designator.show : Designator → String
  | .identifier s => s
  | .operatorSymbol s => "\"" ++ s ++ "\""
  | .character b => squote ++ String.singleton (Char.ofNat b) ++ squote

/-- Diagnostic severity (`message::Severity`); the checker only emits
errors and hints. -/
inductive Severity where
  | error
  | hint
deriving DecidableEq, Repr

/-- A diagnostic (`message::Message`): severity, primary position and
text, and an optional related position with a note. -/
structure Message where
  severity : Severity
  pos : Nat
  message : String
  related : Option (Nat × String)
deriving DecidableEq, Repr

/-- `Message::error`: an error at a position with no related note. -/
def Message.error (pos : Nat) (message : String) : Message :=
  { severity := .error, pos := pos, message := message, related := none }

/-- `Message::hint`: a hint at a position with no related note. -/
def Message.hint (pos : Nat) (message : String) : Message :=
  { severity := .hint, pos := pos, message := message, related := none }

/-- A declared name as fed to a region (`DeclarativeItem` in
`semantic.rs`): designator with position, overloadability and
deferred-constant flags. -/
structure DeclarativeItem where
  designator : WithPos Designator
  may_overload : Bool
  is_deferred : Bool
deriving DecidableEq, Repr

/-- `DeclarativeItem::new`: plain item, not overloadable, not deferred. -/
def DeclarativeItem.new (designator : WithPos Designator) : DeclarativeItem :=
  { designator := designator, may_overload := false, is_deferred := false }

/-- `DeclarativeItem::from_ident`: item for a plain identifier. -/
def DeclarativeItem.from_ident (ident : Ident) : DeclarativeItem :=
  DeclarativeItem.new ⟨Designator.identifier ident.item, ident.pos⟩

/-- `DeclarativeItem::with_overload`. -/
def DeclarativeItem.with_overload (d : DeclarativeItem) (value : Bool) : DeclarativeItem :=
  { d with may_overload := value }

/-- `DeclarativeItem::with_deferred`. -/
def DeclarativeItem.with_deferred (d : DeclarativeItem) (value : Bool) : DeclarativeItem :=
  { d with is_deferred := value }

/-- Lookup in the association list backing a region
(`FnvHashMap::entry` occupied-vs-vacant test). -/
def lookupDecl : List (Designator × DeclarativeItem) → Designator → Option DeclarativeItem
  | [], _ => none
  | (k, v) :: rest, d => if k = d then some v else lookupDecl rest d

/-- Replacement of the binding for an occupied key
(`std::mem::replace(old_decl, decl)` through `Entry::Occupied`). -/
def replaceDecl : List (Designator × DeclarativeItem) → Designator → DeclarativeItem →
    List (Designator × DeclarativeItem)
  | [], _, _ => []
  | (k, v) :: rest, d, item =>
      if k = d then (k, item) :: rest else (k, v) :: replaceDecl rest d item

/-- A scope (`DeclarativeRegion`): a map from designator to its
representative declared item. -/
structure DeclarativeRegion where
  decls : List (Designator × DeclarativeItem)
deriving DecidableEq, Repr

/-- `DeclarativeRegion::new`: the empty region. -/
def DeclarativeRegion.new : DeclarativeRegion := ⟨[]⟩

/-- Lookup of the representative item for a designator. -/
def DeclarativeRegion.lookup (r : DeclarativeRegion) (d : Designator) :
    Option DeclarativeItem :=
  lookupDecl r.decls d

/-- The "Duplicate declaration" error emitted by `DeclarativeRegion::add`:
primary at the new item's designator, related to the old entry's
designator with the note "Previously defined here". -/
def duplicateMessage (decl old_decl : DeclarativeItem) : Message :=
  { Message.error decl.designator.pos
      ("Duplicate declaration of " ++ squote ++ decl.designator.item.show ++ squote) with
    related := some (old_decl.designator.pos, "Previously defined here") }

/-- `DeclarativeRegion::add`: insert a new item.  On a vacant key the
item is inserted.  On an occupied key: if either side is not
overloadable, a non-deferred item replaces a deferred entry silently
(deferred-constant completion), and every other case is a duplicate
declaration error that leaves the region unchanged; if both sides are
overloadable nothing happens (the existing entry stays). -/
def DeclarativeRegion.add (r : DeclarativeRegion) (decl : DeclarativeItem) :
    DeclarativeRegion × List Message :=
  match lookupDecl r.decls decl.designator.item with
  | some old_decl =>
      if !decl.may_overload || !old_decl.may_overload then
        if !decl.is_deferred && old_decl.is_deferred then
          (⟨replaceDecl r.decls decl.designator.item decl⟩, [])
        else
          (r, [duplicateMessage decl old_decl])
      else
        (r, [])
  | none => (⟨r.decls ++ [(decl.designator.item, decl)]⟩, [])

/-- Fold a list of items into a region with `add`, concatenating the
emitted messages in order. -/
def DeclarativeRegion.add_items (r : DeclarativeRegion) :
    List DeclarativeItem → DeclarativeRegion × List Message
  | [] => (r, [])
  | item :: rest =>
      let step := r.add item
      let next := step.1.add_items rest
      (next.1, step.2 ++ next.2)

/-- `ast::SubprogramDesignator`: a subprogram is named by an identifier
or an operator symbol. -/
inductive SubprogramDesignator where
  | identifier (s : String)
  | operatorSymbol (s : String)
deriving DecidableEq, Repr

/-- `SubprogramDesignator::to_designator`. -/
def SubprogramDesignator.to_designator : SubprogramDesignator → Designator
  | .identifier s => Designator.identifier s
  | .operatorSymbol s => Designator.operatorSymbol s

/-- `ast::EnumerationLiteral`: an identifier or a character literal. -/
inductive EnumerationLiteral where
  | identifier (s : String)
  | character (b : Nat)
deriving DecidableEq, Repr

/-- `EnumerationLiteral::to_designator`. -/
def EnumerationLiteral.to_designator : EnumerationLiteral → Designator
  | .identifier s => Designator.identifier s
  | .character b => Designator.character b

/-- Object class of an object declaration (`ast::ObjectClass`); only the
comparison with `Constant` matters to the checker. -/
inductive ObjectClass where
  | constant
  | signal
  | variable_
  | sharedVariable
deriving DecidableEq, Repr

/-- `ast::ObjectDeclaration`, keeping the fields the checker reads:
name, class, and whether an initialising expression is present. -/
structure ObjectDeclaration where
  ident : Ident
  class_ : ObjectClass
  expression : Option Unit
deriving DecidableEq, Repr

mutual
/-- One entry of a generic/port/parameter interface list
(`ast::InterfaceDeclaration`), keeping only the name payloads the
checker reads. -/
inductive InterfaceDeclaration where
  | object (ident : Ident)
  | file (ident : Ident)
  | type_ (ident : Ident)
  | subprogram (decl : SubprogramDeclaration)
  | package (ident : Ident)

/-- `ast::SubprogramDeclaration`: a function or procedure signature with
its designator and parameter interface list. -/
inductive SubprogramDeclaration where
  | function (designator : WithPos SubprogramDesignator)
      (parameter_list : List InterfaceDeclaration)
  | procedure (designator : WithPos SubprogramDesignator)
      (parameter_list : List InterfaceDeclaration)
end

/-- `SubprogramDeclaration::designator`. -/
def SubprogramDeclaration.designator : SubprogramDeclaration → WithPos Designator
  | .function d _ => ⟨d.item.to_designator, d.pos⟩
  | .procedure d _ => ⟨d.item.to_designator, d.pos⟩

/-- `SubprogramDeclaration::interface_list`: the parameter list. -/
def SubprogramDeclaration.interface_list : SubprogramDeclaration → List InterfaceDeclaration
  | .function _ parameter_list => parameter_list
  | .procedure _ parameter_list => parameter_list

/-- `ast::ComponentDeclaration`: name plus generic and port interface
lists. -/
structure ComponentDeclaration where
  ident : Ident
  generic_list : List InterfaceDeclaration
  port_list : List InterfaceDeclaration

/-- `ast::Attribute`: an attribute declaration (with a name) or an
attribute specification (contributing no declarative item). -/
inductive Attribute where
  | declaration (ident : Ident)
  | specification

/-- An item of a protected type declaration
(`ast::ProtectedTypeDeclarativeItem`): a subprogram signature. -/
inductive ProtectedTypeDeclarativeItem where
  | subprogram (decl : SubprogramDeclaration)

/-- `ast::ElementDeclaration`: one record element name. -/
structure ElementDeclaration where
  ident : Ident
deriving DecidableEq, Repr

mutual
/-- `ast::Declaration`, keeping the payloads `semantic.rs` reads.  The
Rust `SubprogramBody` and `TypeDeclaration` structs are inlined as
constructor fields (`specification`/`declarations`, and
`ident`/`def`). -/
inductive Declaration where
  | alias_ (designator : WithPos Designator) (signature : Option Unit)
  | object (decl : ObjectDeclaration)
  | file (ident : Ident)
  | component (decl : ComponentDeclaration)
  | attribute_ (attr : Attribute)
  | subprogramBody (specification : SubprogramDeclaration)
      (declarations : List Declaration)
  | subprogramDeclaration (decl : SubprogramDeclaration)
  | use_
  | package (ident : Ident)
  | configuration
  | type_ (ident : Ident) (definition : TypeDefinition)

/-- `ast::TypeDefinition`, keeping the variants the checker
distinguishes; all remaining variants (integer, array, access, ...) are
collapsed into `other`, matching the catch-all arms in the Rust
matches. -/
inductive TypeDefinition where
  | enumeration (literals : List (WithPos EnumerationLiteral))
  | incomplete
  | protected_ (items : List ProtectedTypeDeclarativeItem)
  | protectedBody (decl : List Declaration)
  | record (elements : List ElementDeclaration)
  | other
end

mutual
/-- `ast::ConcurrentStatement`, keeping the declarative payloads; the
`Conditional`/`Alternative` wrappers of if/case generate carry only a
condition or choice the checker ignores, so the bodies are kept
directly.  All statement kinds without nested declarations are
collapsed into `other`. -/
inductive ConcurrentStatement where
  | block (decl : List Declaration) (statements : List LabeledConcurrentStatement)
  | process (decl : List Declaration)
  | forGenerate (body : GenerateBody)
  | ifGenerate (conditionals : List GenerateBody) (else_item : Option GenerateBody)
  | caseGenerate (alternatives : List GenerateBody)
  | other

/-- `ast::LabeledConcurrentStatement`: an optional label plus the
statement. -/
inductive LabeledConcurrentStatement where
  | mk (label : Option Ident) (statement : ConcurrentStatement)

/-- `ast::GenerateBody`: optional declarative part plus nested
concurrent statements. -/
inductive GenerateBody where
  | mk (decl : Option (List Declaration)) (statements : List LabeledConcurrentStatement)
end

/-- `Declaration::declarative_items`: the declarative items one
declaration contributes to its region, in source order. -/
def Declaration.declarative_items : Declaration → List DeclarativeItem
  | .alias_ designator signature =>
      [(DeclarativeItem.new designator).with_overload signature.isSome]
  | .object decl =>
      [(DeclarativeItem.from_ident decl.ident).with_deferred
        (decl.class_ = ObjectClass.constant && decl.expression.isNone)]
  | .file ident => [DeclarativeItem.from_ident ident]
  | .component decl => [DeclarativeItem.from_ident decl.ident]
  | .attribute_ (.declaration ident) => [DeclarativeItem.from_ident ident]
  | .attribute_ .specification => []
  | .subprogramBody specification _ =>
      [(DeclarativeItem.new specification.designator).with_overload true]
  | .subprogramDeclaration decl =>
      [(DeclarativeItem.new decl.designator).with_overload true]
  | .use_ => []
  | .package ident => [DeclarativeItem.from_ident ident]
  | .configuration => []
  | .type_ _ (.protectedBody _) => []
  | .type_ _ .incomplete => []
  | .type_ ident (.enumeration literals) =>
      DeclarativeItem.from_ident ident ::
        literals.map (fun literal =>
          (DeclarativeItem.new ⟨literal.item.to_designator, literal.pos⟩).with_overload true)
  | .type_ ident _ => [DeclarativeItem.from_ident ident]

/-- `InterfaceDeclaration::declarative_items`. -/
def InterfaceDeclaration.declarative_items : InterfaceDeclaration → List DeclarativeItem
  | .file ident => [DeclarativeItem.from_ident ident]
  | .object ident => [DeclarativeItem.from_ident ident]
  | .type_ ident => [DeclarativeItem.from_ident ident]
  | .subprogram decl => [(DeclarativeItem.new decl.designator).with_overload true]
  | .package ident => [DeclarativeItem.from_ident ident]

/-- `DeclarativeRegion::add_interface_list`: add every item of every
interface declaration, in source order. -/
def DeclarativeRegion.add_interface_list (r : DeclarativeRegion)
    (declarations : List InterfaceDeclaration) : DeclarativeRegion × List Message :=
  r.add_items (declarations.flatMap InterfaceDeclaration.declarative_items)

/-- `DeclarativeRegion::add_declarative_part`: add every item of every
declaration, in source order. -/
def DeclarativeRegion.add_declarative_part (r : DeclarativeRegion)
    (declarations : List Declaration) : DeclarativeRegion × List Message :=
  r.add_items (declarations.flatMap Declaration.declarative_items)

/-- `DeclarativeRegion::add_element_declarations`: add one plain item
per record element. -/
def DeclarativeRegion.add_element_declarations (r : DeclarativeRegion)
    (declarations : List ElementDeclaration) : DeclarativeRegion × List Message :=
  r.add_items (declarations.map (fun decl => DeclarativeItem.from_ident decl.ident))

/-- `check_element_declaration_unique_ident`: detect homographs in a
record's element list, starting from a fresh empty region. -/
def check_element_declaration_unique_ident
    (declarations : List ElementDeclaration) : List Message :=
  (DeclarativeRegion.new.add_element_declarations declarations).2

/-- `check_interface_list_unique_ident`: detect homographs in one
interface list, starting from a fresh empty region. -/
def check_interface_list_unique_ident
    (declarations : List InterfaceDeclaration) : List Message :=
  (DeclarativeRegion.new.add_interface_list declarations).2

mutual
/-- `check_declarative_part_unique_ident`: build a region from the
declarations (detecting sibling collisions), then recurse into each
declaration's own nested scopes. -/
def check_declarative_part_unique_ident (declarations : List Declaration) :
    List Message :=
  (DeclarativeRegion.new.add_declarative_part declarations).2 ++
    check_declarative_part_unique_ident_inner declarations

/-- `check_declarative_part_unique_ident_inner`: the per-declaration
loop of the Rust function of the same name, recursing into nested
scopes of each declaration in turn. -/
def check_declarative_part_unique_ident_inner : List Declaration → List Message
  | [] => []
  | decl :: rest =>
      check_declaration_inner decl ++ check_declarative_part_unique_ident_inner rest

/-- One arm of the match inside `check_declarative_part_unique_ident_inner`:
the nested-scope checks contributed by a single declaration. -/
def check_declaration_inner : Declaration → List Message
  | .component component =>
      check_interface_list_unique_ident component.generic_list ++
        check_interface_list_unique_ident component.port_list
  | .subprogramBody specification declarations =>
      check_interface_list_unique_ident specification.interface_list ++
        check_declarative_part_unique_ident declarations
  | .subprogramDeclaration decl =>
      check_interface_list_unique_ident decl.interface_list
  | .type_ _ (.protectedBody decl) =>
      check_declarative_part_unique_ident decl
  | .type_ _ (.protected_ items) =>
      check_protected_items items
  | .type_ _ (.record decls) =>
      check_element_declaration_unique_ident decls
  | _ => []

/-- The loop over a protected type declaration's items: check each
subprogram signature's parameter list. -/
def check_protected_items : List ProtectedTypeDeclarativeItem → List Message
  | [] => []
  | .subprogram subprogram :: rest =>
      check_interface_list_unique_ident subprogram.interface_list ++
        check_protected_items rest
end

mutual
/-- `check_generate_body`: check the body's optional declarative part,
then its nested concurrent statements. -/
def check_generate_body : GenerateBody → List Message
  | .mk decl statements =>
      (match decl with
        | some d => check_declarative_part_unique_ident d
        | none => []) ++
      check_concurrent_part statements

/-- `check_concurrent_statement`: dispatch on the statement kind;
blocks, processes and the three generate forms own nested declarative
scopes. -/
def check_concurrent_statement : LabeledConcurrentStatement → List Message
  | .mk _ (.block decl statements) =>
      check_declarative_part_unique_ident decl ++ check_concurrent_part statements
  | .mk _ (.process decl) =>
      check_declarative_part_unique_ident decl
  | .mk _ (.forGenerate body) =>
      check_generate_body body
  | .mk _ (.ifGenerate conditionals else_item) =>
      check_generate_bodies conditionals ++
        (match else_item with
          | some else_body => check_generate_body else_body
          | none => [])
  | .mk _ (.caseGenerate alternatives) =>
      check_generate_bodies alternatives
  | .mk _ .other => []

/-- The loop over the branches of an if-generate or the alternatives of
a case-generate: each body is checked independently. -/
def check_generate_bodies : List GenerateBody → List Message
  | [] => []
  | body :: rest => check_generate_body body ++ check_generate_bodies rest

/-- `check_concurrent_part`: check each concurrent statement in order. -/
def check_concurrent_part : List LabeledConcurrentStatement → List Message
  | [] => []
  | statement :: rest =>
      check_concurrent_statement statement ++ check_concurrent_part rest
end

/-- `ast::EntityDeclaration`: name, optional generic and port clauses,
declarative part and concurrent statements. -/
structure EntityDeclaration where
  ident : Ident
  generic_clause : Option (List InterfaceDeclaration)
  port_clause : Option (List InterfaceDeclaration)
  decl : List Declaration
  statements : List LabeledConcurrentStatement

/-- `ast::ArchitectureBody`: declarative part and concurrent
statements (the entity name reference is not read by the checker). -/
structure ArchitectureBody where
  ident : Ident
  decl : List Declaration
  statements : List LabeledConcurrentStatement

/-- `ast::PackageDeclaration`: name, optional generic clause and
declarative part. -/
structure PackageDeclaration where
  ident : Ident
  generic_clause : Option (List InterfaceDeclaration)
  decl : List Declaration

/-- `ast::PackageBody`: declarative part. -/
structure PackageBody where
  ident : Ident
  decl : List Declaration

/-- `check_package_declaration`: empty region extended with the
optional generic clause then the declarative part, then the inner
per-declaration recursion; the region is returned for reuse by the
package body. -/
def check_package_declaration (package : PackageDeclaration) :
    DeclarativeRegion × List Message :=
  let step1 :=
    match package.generic_clause with
    | some list => DeclarativeRegion.new.add_interface_list list
    | none => (DeclarativeRegion.new, [])
  let step2 := step1.1.add_declarative_part package.decl
  (step2.1,
    step1.2 ++ step2.2 ++ check_declarative_part_unique_ident_inner package.decl)

/-- `check_architecture_body`: extend the given (cloned) entity region
with the architecture's declarative part, recurse into its nested
scopes, then check its concurrent statements. -/
def check_architecture_body (entity_region : DeclarativeRegion)
    (architecture : ArchitectureBody) : DeclarativeRegion × List Message :=
  let step := entity_region.add_declarative_part architecture.decl
  (step.1,
    step.2 ++ check_declarative_part_unique_ident_inner architecture.decl ++
      check_concurrent_part architecture.statements)

/-- `check_package_body`: extend the given (cloned) package region with
the body's declarative part and recurse into its nested scopes. -/
def check_package_body (package_region : DeclarativeRegion)
    (package : PackageBody) : DeclarativeRegion × List Message :=
  let step := package_region.add_declarative_part package.decl
  (step.1, step.2 ++ check_declarative_part_unique_ident_inner package.decl)

/-- `check_entity_declaration`: empty region extended in order with the
generic clause, the port clause and the declarative part, then the
entity's concurrent statements are checked; the region is returned for
reuse by architectures. -/
def check_entity_declaration (entity : EntityDeclaration) :
    DeclarativeRegion × List Message :=
  let step1 :=
    match entity.generic_clause with
    | some list => DeclarativeRegion.new.add_interface_list list
    | none => (DeclarativeRegion.new, [])
  let step2 :=
    match entity.port_clause with
    | some list => step1.1.add_interface_list list
    | none => (step1.1, [])
  let step3 := step2.1.add_declarative_part entity.decl
  (step3.1,
    step1.2 ++ step2.2 ++ step3.2 ++ check_concurrent_part entity.statements)

/-- `ast::LibraryClause` content / `ast::ContextItem`: a library clause
with its list of library names; other context items (use clauses,
context references) are collapsed into `other`, matching the catch-all
arm. -/
inductive ContextItem where
  | library (name_list : List (WithPos String))
  | other

/-- A context clause: list of positioned context items. -/
abbrev ContextClause := List (WithPos ContextItem)

/-- A design unit with its context clause (`library::DesignUnit<T>`).
Modelled from the spec: the library module is outside this core; each
unit holds its declared library dependencies and the unit payload. -/
structure DesignUnit (α : Type) where
  context_clause : ContextClause
  unit : α

/-- An entity with its architectures (`library::EntityDesignUnit`).
Modelled from the spec: each library holds entities, each with zero or
more architectures; the architecture map's values are modelled as a
list. -/
structure EntityDesignUnit where
  entity : DesignUnit EntityDeclaration
  architectures : List (DesignUnit ArchitectureBody)

/-- A package with its optional body (`library::PackageDesignUnit`).
Modelled from the spec: each package holds its declaration and an
optional body. -/
structure PackageDesignUnit where
  package : DesignUnit PackageDeclaration
  body : Option (DesignUnit PackageBody)

/-- A library (`library::Library`). Modelled from the spec: a named
collection of entities and packages. -/
structure Library where
  name : String
  entities : List EntityDesignUnit
  packages : List PackageDesignUnit

/-- The design root (`library::DesignRoot`). Modelled from the spec: an
aggregate of libraries supporting iteration and a by-name existence
query. -/
structure DesignRoot where
  libraries : List Library

/-- `DesignRoot::has_library`. Modelled from the spec: "does a library
with this name exist in the root". -/
def DesignRoot.has_library (root : DesignRoot) (name : String) : Bool :=
  root.libraries.any (fun library => library.name = name)

/-- The analyzer (`semantic::Analyzer`): holds the interned symbols for
the current working library and the predefined standard library. -/
structure Analyzer where
  work_sym : String
  std_sym : String

/-- `Analyzer::new`: interns "work" and "std". -/
def Analyzer.new : Analyzer := { work_sym := "work", std_sym := "std" }

/-- `Analyzer::check_context_clause`: for each name of each library
clause: "std" is predefined and silently accepted; the working library
gets a hint; any other name is checked against the design root and an
error is emitted when absent. -/
def Analyzer.check_context_clause (a : Analyzer) (root : DesignRoot)
    (context_clause : ContextClause) : List Message :=
  context_clause.flatMap fun context_item =>
    match context_item.item with
    | .library name_list =>
        name_list.flatMap fun library_name =>
          if a.std_sym = library_name.item then
            []
          else if a.work_sym = library_name.item then
            [Message.hint library_name.pos
              "Library clause not necessary for current working library"]
          else if !root.has_library library_name.item then
            [Message.error library_name.pos
              ("No such library " ++ squote ++ library_name.item ++ squote)]
          else
            []
    | .other => []

/-- The per-entity body of the loop in `Analyzer::analyze`: check the
entity's context clause and declaration, then check every architecture
against a fresh clone of the entity's region. -/
def Analyzer.analyze_entity (a : Analyzer) (root : DesignRoot)
    (entity : EntityDesignUnit) : List Message :=
  a.check_context_clause root entity.entity.context_clause ++
    (let step := check_entity_declaration entity.entity.unit
     step.2 ++
       entity.architectures.flatMap fun architecture =>
         a.check_context_clause root architecture.context_clause ++
           (check_architecture_body step.1 architecture.unit).2)

/-- The per-package body of the loop in `Analyzer::analyze`: check the
package's context clause and declaration, then check the optional body
against a fresh clone of the package's region. -/
def Analyzer.analyze_package (a : Analyzer) (root : DesignRoot)
    (package : PackageDesignUnit) : List Message :=
  a.check_context_clause root package.package.context_clause ++
    (let step := check_package_declaration package.package.unit
     step.2 ++
       match package.body with
       | some body =>
           a.check_context_clause root body.context_clause ++
             (check_package_body step.1 body.unit).2
       | none => [])

/-- `Analyzer::analyze`: for each library, process every entity (with
its architectures) and then every package (with its optional body). -/
def Analyzer.analyze (a : Analyzer) (root : DesignRoot) : List Message :=
  root.libraries.flatMap fun library =>
    library.entities.flatMap (a.analyze_entity root) ++
      library.packages.flatMap (a.analyze_package root)

/-! ### Concrete-input builders used by the theorems below -/

/-- A complete constant declaration `constant s : t := e;` at position `p`. -/
def constInit (s : String) (p : Nat) : Declaration :=
  .object ⟨⟨s, p⟩, .constant, some ()⟩

/-- A deferred constant declaration `constant s : t;` at position `p`. -/
def defConst (s : String) (p : Nat) : Declaration :=
  .object ⟨⟨s, p⟩, .constant, none⟩

/-- A signal declaration `signal s : t;` at position `p`. -/
def sigDecl (s : String) (p : Nat) : Declaration :=
  .object ⟨⟨s, p⟩, .signal, none⟩

/-- A non-enumeration type declaration `type s is ...;` at position `p`. -/
def typeDecl (s : String) (p : Nat) : Declaration :=
  .type_ ⟨s, p⟩ .other

/-- A procedure declaration named `s` at position `p` with the given
parameter interface list. -/
def procDecl (s : String) (p : Nat) (params : List InterfaceDeclaration) : Declaration :=
  .subprogramDeclaration (.procedure ⟨.identifier s, p⟩ params)

/-- A procedure body named `s` at position `p` with the given parameter
interface list and local declarative part. -/
def procBody (s : String) (p : Nat) (params : List InterfaceDeclaration)
    (locals : List Declaration) : Declaration :=
  .subprogramBody (.procedure ⟨.identifier s, p⟩ params) locals

/-- An interface object (generic/port/parameter) named `s` at position `p`. -/
def ifaceObj (s : String) (p : Nat) : InterfaceDeclaration :=
  .object ⟨s, p⟩

/-- The expected duplicate-declaration error for identifier `s`:
primary at position `p`, related to position `q`. -/
def dupMsg (s : String) (p q : Nat) : Message :=
  { severity := .error, pos := p,
    message := "Duplicate declaration of " ++ squote ++ s ++ squote,
    related := some (q, "Previously defined here") }

/-- The item contributed by a complete constant named `s` at position `p`. -/
def constItem (s : String) (p : Nat) : DeclarativeItem :=
  ⟨⟨.identifier s, p⟩, false, false⟩

/-- The item contributed by a subprogram named `s` at position `p`. -/
def subprogItem (s : String) (p : Nat) : DeclarativeItem :=
  ⟨⟨.identifier s, p⟩, true, false⟩

/-- The item contributed by a deferred constant named `s` at position `p`. -/
def deferredItem (s : String) (p : Nat) : DeclarativeItem :=
  ⟨⟨.identifier s, p⟩, false, true⟩

/-! ### Auxiliary lemmas about the region map -/

/-- Replacing the binding of a key that is present makes lookup return
the replacement. -/
theorem lookupDecl_replaceDecl (l : List (Designator × DeclarativeItem))
    (d : Designator) (x : DeclarativeItem) (h : (lookupDecl l d).isSome) :
    lookupDecl (replaceDecl l d x) d = some x := by
  induction l with
  | nil => simp [lookupDecl] at h
  | cons kv rest ih =>
    obtain ⟨k, v⟩ := kv
    by_cases hk : k = d
    · subst hk
      simp [lookupDecl, replaceDecl]
    · simp only [lookupDecl, replaceDecl, if_neg hk] at h ⊢
      exact ih h

/-! ### Claims -/

/-- C1 counterexample: after inserting two mutually overload-compatible
subprogram items for the same designator, the region still maps the key
to the FIRST item, not the most recently inserted one — `add` does not
replace the representative on an acceptable overload. -/
theorem C1_counterexample :
    ((DeclarativeRegion.new.add (subprogItem "f" 1)).1.add (subprogItem "f" 2)).1.lookup
        (Designator.identifier "f") = some (subprogItem "f" 1) ∧
      subprogItem "f" 1 ≠ subprogItem "f" 2 := by
  constructor
  · simp [DeclarativeRegion.new, DeclarativeRegion.add, DeclarativeRegion.lookup,
      lookupDecl, subprogItem]
  · simp [subprogItem]

/-- C1 (amended): when the new item and the existing entry for its
designator are both overloadable, `add` leaves the region completely
unchanged and emits no diagnostic — the earliest inserted entry of an
overload-compatible chain stays the representative. -/
theorem C1_theorem (r : DeclarativeRegion) (item old : DeclarativeItem)
    (h : r.lookup item.designator.item = some old)
    (h1 : item.may_overload = true) (h2 : old.may_overload = true) :
    r.add item = (r, []) ∧
      (r.add item).1.lookup item.designator.item = some old := by
  unfold DeclarativeRegion.lookup at h
  have hadd : r.add item = (r, []) := by
    unfold DeclarativeRegion.add
    rw [h]
    simp [h1, h2]
  exact ⟨hadd, by rw [hadd]; exact h⟩

/-- C1 witness: instantiation of `C1_theorem` on a one-entry region. -/
theorem C1_witness :
    (DeclarativeRegion.mk [(Designator.identifier "f", subprogItem "f" 1)]).add
        (subprogItem "f" 2) =
      (DeclarativeRegion.mk [(Designator.identifier "f", subprogItem "f" 1)], []) :=
  (C1_theorem (DeclarativeRegion.mk [(Designator.identifier "f", subprogItem "f" 1)])
    (subprogItem "f" 2) (subprogItem "f" 1) (by decide) (by decide) (by decide)).1

/-- Characterisation of the diagnostic path of `add`: any emitted
message comes from the duplicate-declaration branch, where the region
is returned unchanged and the single message relates the new item to
the existing representative. -/
theorem add_emits (r : DeclarativeRegion) (item : DeclarativeItem) (msg : Message)
    (h : msg ∈ (r.add item).2) :
    ∃ old, lookupDecl r.decls item.designator.item = some old ∧
      r.add item = (r, [duplicateMessage item old]) ∧ msg = duplicateMessage item old := by
  rcases hl : lookupDecl r.decls item.designator.item with _ | old
  · unfold DeclarativeRegion.add at h
    rw [hl] at h
    simp at h
  · by_cases h1 : (!item.may_overload || !old.may_overload) = true
    · by_cases h2 : (!item.is_deferred && old.is_deferred) = true
      · unfold DeclarativeRegion.add at h
        rw [hl] at h
        simp only [if_pos h1, if_pos h2] at h
        simp at h
      · have heq : r.add item = (r, [duplicateMessage item old]) := by
          unfold DeclarativeRegion.add
          rw [hl]
          simp only [if_pos h1, if_neg h2]
        rw [heq] at h
        simp only [List.mem_singleton] at h
        exact ⟨old, rfl, heq, h⟩
    · unfold DeclarativeRegion.add at h
      rw [hl] at h
      simp only [if_neg h1] at h
      simp at h

/-- C4: whenever `add` emits a diagnostic, the region is left unchanged
by that call, and the diagnostic is an Error "Duplicate declaration of
'name'" whose primary position is the new item's designator and whose
related position is the existing representative's designator. -/
theorem C4_theorem (r : DeclarativeRegion) (item : DeclarativeItem) (msg : Message)
    (h : msg ∈ (r.add item).2) :
    (r.add item).1 = r ∧
      msg.severity = Severity.error ∧
      msg.pos = item.designator.pos ∧
      msg.message =
        "Duplicate declaration of " ++ squote ++ item.designator.item.show ++ squote ∧
      ∃ old, r.lookup item.designator.item = some old ∧
        msg.related = some (old.designator.pos, "Previously defined here") := by
  obtain ⟨old, hl, heq, hmsg⟩ := add_emits r item msg h
  subst hmsg
  exact ⟨by rw [heq], rfl, rfl, rfl, old, hl, rfl⟩

/-- C4 witness: instantiation of `C4_theorem` on a one-entry region
holding a constant, with a colliding signal-like item. -/
theorem C4_witness :
    ((DeclarativeRegion.mk [(Designator.identifier "a", constItem "a" 1)]).add
        (constItem "a" 2)).1 =
        DeclarativeRegion.mk [(Designator.identifier "a", constItem "a" 1)] ∧
      (dupMsg "a" 2 1).severity = Severity.error ∧
      (dupMsg "a" 2 1).pos = (constItem "a" 2).designator.pos ∧
      (dupMsg "a" 2 1).message =
        "Duplicate declaration of " ++ squote ++
          (constItem "a" 2).designator.item.show ++ squote ∧
      ∃ old, (DeclarativeRegion.mk
          [(Designator.identifier "a", constItem "a" 1)]).lookup
            (constItem "a" 2).designator.item = some old ∧
        (dupMsg "a" 2 1).related =
          some (old.designator.pos, "Previously defined here") :=
  C4_theorem (DeclarativeRegion.mk [(Designator.identifier "a", constItem "a" 1)])
    (constItem "a" 2) (dupMsg "a" 2 1)
    (by simp [DeclarativeRegion.add, lookupDecl, constItem, dupMsg, duplicateMessage,
      Message.error, Designator.show])

/-- C9: in `add`, a (necessarily non-overloadable) deferred entry is
silently replaced by any later non-deferred item with the same
designator, whatever the new item's kind or overloadability; moreover
the only deferred items ever produced — those of constants without an
initialising expression — are indeed non-overloadable. -/
theorem C9_theorem (r : DeclarativeRegion) (item old : DeclarativeItem)
    (h : r.lookup item.designator.item = some old)
    (h1 : old.is_deferred = true) (h2 : item.is_deferred = false)
    (h3 : old.may_overload = false) :
    ((r.add item).2 = [] ∧
      (r.add item).1.lookup item.designator.item = some item) ∧
      ∀ i : Ident, (Declaration.object ⟨i, ObjectClass.constant, none⟩).declarative_items =
        [⟨⟨Designator.identifier i.item, i.pos⟩, false, true⟩] := by
  unfold DeclarativeRegion.lookup at h
  have hcond : (!item.may_overload || !old.may_overload) = true := by
    rw [h3]; simp
  have hdef : (!item.is_deferred && old.is_deferred) = true := by
    rw [h1, h2]; simp
  have heq : r.add item = (⟨replaceDecl r.decls item.designator.item item⟩, []) := by
    unfold DeclarativeRegion.add
    rw [h]
    simp only [if_pos hcond, if_pos hdef]
  refine ⟨⟨by rw [heq], ?_⟩, ?_⟩
  · rw [heq]
    exact lookupDecl_replaceDecl _ _ _ (by rw [h]; rfl)
  · intro i
    simp [Declaration.declarative_items, DeclarativeItem.from_ident,
      DeclarativeItem.new, DeclarativeItem.with_deferred]

/-- C9 witness: a deferred constant entry is replaced by a same-named
subprogram item (a different, overloadable declaration kind) with no
diagnostic. -/
theorem C9_witness :
    ((DeclarativeRegion.mk [(Designator.identifier "a", deferredItem "a" 1)]).add
        (subprogItem "a" 2)).2 = [] ∧
      ((DeclarativeRegion.mk [(Designator.identifier "a", deferredItem "a" 1)]).add
        (subprogItem "a" 2)).1.lookup (Designator.identifier "a") =
        some (subprogItem "a" 2) :=
  (C9_theorem (DeclarativeRegion.mk [(Designator.identifier "a", deferredItem "a" 1)])
    (subprogItem "a" 2) (deferredItem "a" 1) (by decide) (by decide) (by decide)
    (by decide)).1

/-- C3: deferred constant then complete constant gives no diagnostic
and the complete entry becomes the representative; complete then
deferred gives one duplicate; deferred, complete, complete gives
exactly one duplicate, between the second and third occurrences. -/
theorem C3_theorem :
    check_declarative_part_unique_ident [defConst "a" 1, constInit "a" 2] = [] ∧
      (DeclarativeRegion.new.add_declarative_part
          [defConst "a" 1, constInit "a" 2]).1.lookup (Designator.identifier "a") =
        some (constItem "a" 2) ∧
      check_declarative_part_unique_ident [constInit "a" 1, defConst "a" 2] =
        [dupMsg "a" 2 1] ∧
      check_declarative_part_unique_ident
          [defConst "a" 1, constInit "a" 2, constInit "a" 3] =
        [dupMsg "a" 3 2] := by
  refine ⟨?_, ?_, ?_, ?_⟩ <;>
    simp [check_declarative_part_unique_ident, check_declarative_part_unique_ident_inner,
      check_declaration_inner, DeclarativeRegion.add_declarative_part,
      DeclarativeRegion.add_items, DeclarativeRegion.add, DeclarativeRegion.new,
      DeclarativeRegion.lookup, lookupDecl, replaceDecl, Declaration.declarative_items,
      DeclarativeItem.new, DeclarativeItem.from_ident, DeclarativeItem.with_deferred,
      duplicateMessage, Message.error, Designator.show, constInit, defConst, dupMsg,
      constItem]

/-- The entity used to separate C2's claim from the code: its
declarative part holds a subprogram body whose parameter list contains
a duplicate. -/
def entC2 : EntityDeclaration :=
  { ident := ⟨"ent", 0⟩, generic_clause := none, port_clause := none,
    decl := [procBody "proc" 1 [ifaceObj "a" 2, ifaceObj "a" 3] []],
    statements := [] }

/-- C2 counterexample: checking this entity emits nothing — the
duplicate parameter inside the subprogram body in the entity's
declarative part is not reported — while the ordinary declarative-part
check on the same declarations does report it. -/
theorem C2_counterexample :
    (check_entity_declaration entC2).2 = [] ∧
      check_declarative_part_unique_ident entC2.decl = [dupMsg "a" 3 2] := by
  constructor <;>
    simp [check_entity_declaration, check_declarative_part_unique_ident,
      check_declarative_part_unique_ident_inner, check_declaration_inner,
      check_interface_list_unique_ident, check_concurrent_part, entC2,
      DeclarativeRegion.add_declarative_part, DeclarativeRegion.add_interface_list,
      DeclarativeRegion.add_items, DeclarativeRegion.add, DeclarativeRegion.new,
      lookupDecl, Declaration.declarative_items, InterfaceDeclaration.declarative_items,
      SubprogramDeclaration.designator, SubprogramDeclaration.interface_list,
      SubprogramDesignator.to_designator, DeclarativeItem.new, DeclarativeItem.from_ident,
      DeclarativeItem.with_overload, duplicateMessage, Message.error, Designator.show,
      procBody, ifaceObj, dupMsg]

/-- C2 (amended): `check_entity_declaration` only accumulates the
declarative part into the entity region (plus the concurrent-statement
check); it does not recurse into the nested scopes of the declarative
part's declarations, so for an entity without clauses and statements
the emitted messages are exactly the region-builder messages. -/
theorem C2_theorem (i : Ident) (ds : List Declaration) :
    (check_entity_declaration
        { ident := i, generic_clause := none, port_clause := none,
          decl := ds, statements := [] }).2 =
      (DeclarativeRegion.new.add_declarative_part ds).2 := by
  simp [check_entity_declaration, check_concurrent_part]

/-- The entity used for C6: a generic named `g`, a port also named `g`,
a second port `p`, and a declarative-part constant also named `p`. -/
def entC6 : EntityDeclaration :=
  { ident := ⟨"ent", 0⟩, generic_clause := some [ifaceObj "g" 1],
    port_clause := some [ifaceObj "g" 2, ifaceObj "p" 3],
    decl := [constInit "p" 4], statements := [] }

/-- C6: the generic clause, port clause and declarative part accumulate
into one region, each later extension checked against everything
already accumulated: the port `g` collides with the generic `g`
(primary at the port, related at the generic) and the declarative-part
constant `p` collides with the port `p`. -/
theorem C6_theorem :
    (check_entity_declaration entC6).2 = [dupMsg "g" 2 1, dupMsg "p" 4 3] := by
  simp [check_entity_declaration, check_concurrent_part, entC6,
    DeclarativeRegion.add_declarative_part, DeclarativeRegion.add_interface_list,
    DeclarativeRegion.add_items, DeclarativeRegion.add, DeclarativeRegion.new,
    lookupDecl, Declaration.declarative_items, InterfaceDeclaration.declarative_items,
    DeclarativeItem.new, DeclarativeItem.from_ident, DeclarativeItem.with_deferred,
    duplicateMessage, Message.error, Designator.show, constInit, ifaceObj, dupMsg]

/-- C8: a subprogram body's parameter interface list and its local
declarative part are checked in two separate fresh regions, so a
parameter and a local may share a name, while duplicates within either
list alone are reported. -/
theorem C8_theorem :
    (∀ (specification : SubprogramDeclaration) (declarations : List Declaration),
      check_declaration_inner (.subprogramBody specification declarations) =
        check_interface_list_unique_ident specification.interface_list ++
          check_declarative_part_unique_ident declarations) ∧
      check_declarative_part_unique_ident
        [procBody "proc" 1 [ifaceObj "a" 2] [constInit "a" 3]] = [] ∧
      check_declarative_part_unique_ident
        [procBody "proc" 1 [ifaceObj "a" 2, ifaceObj "b" 3, ifaceObj "a" 4] []] =
        [dupMsg "a" 4 2] ∧
      check_declarative_part_unique_ident
        [procBody "proc" 1 [] [constInit "a" 2, constInit "a" 3]] =
        [dupMsg "a" 3 2] := by
  refine ⟨fun specification declarations => ?_, ?_, ?_, ?_⟩ <;>
    simp [check_declarative_part_unique_ident, check_declarative_part_unique_ident_inner,
      check_declaration_inner, check_interface_list_unique_ident,
      DeclarativeRegion.add_declarative_part, DeclarativeRegion.add_interface_list,
      DeclarativeRegion.add_items, DeclarativeRegion.add, DeclarativeRegion.new,
      lookupDecl, Declaration.declarative_items, InterfaceDeclaration.declarative_items,
      SubprogramDeclaration.designator, SubprogramDeclaration.interface_list,
      SubprogramDesignator.to_designator, DeclarativeItem.new, DeclarativeItem.from_ident,
      DeclarativeItem.with_overload, DeclarativeItem.with_deferred,
      duplicateMessage, Message.error, Designator.show, procBody, ifaceObj, constInit,
      dupMsg]

/-- C10: a component declaration's generic list and port list are each
checked in their own fresh empty region: a component generic and port
sharing a name give no diagnostic, and neither list is checked against
the enclosing scope (here holding a same-named constant `g`). -/
theorem C10_theorem :
    (∀ component : ComponentDeclaration,
      check_declaration_inner (.component component) =
        check_interface_list_unique_ident component.generic_list ++
          check_interface_list_unique_ident component.port_list) ∧
      check_declarative_part_unique_ident
        [constInit "g" 1,
          .component ⟨⟨"c", 2⟩, [ifaceObj "g" 3], [ifaceObj "g" 4]⟩] = [] := by
  refine ⟨fun component => ?_, ?_⟩ <;>
    simp [check_declarative_part_unique_ident, check_declarative_part_unique_ident_inner,
      check_declaration_inner, check_interface_list_unique_ident,
      DeclarativeRegion.add_declarative_part, DeclarativeRegion.add_interface_list,
      DeclarativeRegion.add_items, DeclarativeRegion.add, DeclarativeRegion.new,
      lookupDecl, Declaration.declarative_items, InterfaceDeclaration.declarative_items,
      DeclarativeItem.new, DeclarativeItem.from_ident, DeclarativeItem.with_deferred,
      constInit, ifaceObj]

/-- C5: for every name in every library clause: "std" is silently
accepted; "work" yields exactly one hint and no existence check,
whatever libraries the root holds; any other name yields an error
exactly when the design root has no library of that name. -/
theorem C5_theorem (root : DesignRoot) (items : ContextClause) :
    Analyzer.new.check_context_clause root items =
      items.flatMap fun context_item =>
        match context_item.item with
        | .library name_list =>
            name_list.flatMap fun library_name =>
              if library_name.item = "std" then []
              else if library_name.item = "work" then
                [Message.hint library_name.pos
                  "Library clause not necessary for current working library"]
              else if root.has_library library_name.item then []
              else
                [Message.error library_name.pos
                  ("No such library " ++ squote ++ library_name.item ++ squote)]
        | .other => [] := by
  unfold Analyzer.check_context_clause
  congr 1
  funext context_item
  obtain ⟨item, posn⟩ := context_item
  cases item with
  | other => rfl
  | library name_list =>
    simp only []
    congr 1
    funext library_name
    simp only [Analyzer.new]
    by_cases hstd : library_name.item = "std"
    · rw [if_pos hstd.symm, if_pos hstd]
    · rw [if_neg (fun h => hstd h.symm), if_neg hstd]
      by_cases hwork : library_name.item = "work"
      · rw [if_pos hwork.symm, if_pos hwork]
      · rw [if_neg (fun h => hwork h.symm), if_neg hwork]
        cases hhas : root.has_library library_name.item <;> simp [hhas]

/-- The entity design unit used for C7: the entity declares `e1`, and
each of its two architectures declares `x` and then re-declares `e1`. -/
def entUnitC7 : EntityDesignUnit :=
  { entity :=
      { context_clause := [],
        unit := { ident := ⟨"ent", 0⟩, generic_clause := none, port_clause := none,
                  decl := [constInit "e1" 1], statements := [] } },
    architectures :=
      [ { context_clause := [],
          unit := { ident := ⟨"a1", 10⟩,
                    decl := [constInit "x" 12, constInit "e1" 13], statements := [] } },
        { context_clause := [],
          unit := { ident := ⟨"a2", 20⟩,
                    decl := [constInit "x" 22, constInit "e1" 23], statements := [] } } ] }

/-- C7: every architecture is checked against the entity's own final
region, independently of its siblings (appending a second architecture
only appends a block computed from the entity region and that
architecture); the same holds for a package body against the package
region; and concretely two sibling architectures re-declaring the same
entity constant `e1` produce one diagnostic each, both related to the
entity's declaration, with neither architecture seeing the other's `x`. -/
theorem C7_theorem :
    (∀ (a : Analyzer) (root : DesignRoot) (e : DesignUnit EntityDeclaration)
        (arch1 arch2 : DesignUnit ArchitectureBody),
      a.analyze_entity root ⟨e, [arch1, arch2]⟩ =
        a.analyze_entity root ⟨e, [arch1]⟩ ++
          (a.check_context_clause root arch2.context_clause ++
            (check_architecture_body (check_entity_declaration e.unit).1 arch2.unit).2)) ∧
      (∀ (a : Analyzer) (root : DesignRoot) (p : DesignUnit PackageDeclaration)
          (body : DesignUnit PackageBody),
        a.analyze_package root ⟨p, some body⟩ =
          a.analyze_package root ⟨p, none⟩ ++
            (a.check_context_clause root body.context_clause ++
              (check_package_body (check_package_declaration p.unit).1 body.unit).2)) ∧
      Analyzer.new.analyze_entity ⟨[]⟩ entUnitC7 =
        [dupMsg "e1" 13 1, dupMsg "e1" 23 1] := by
  refine ⟨fun a root e arch1 arch2 => ?_, fun a root p body => ?_, ?_⟩
  · simp [Analyzer.analyze_entity, List.append_assoc]
  · simp [Analyzer.analyze_package, List.append_assoc]
  · simp [Analyzer.analyze_entity, Analyzer.check_context_clause, Analyzer.new,
      check_entity_declaration, check_architecture_body, check_concurrent_part,
      check_declarative_part_unique_ident_inner, check_declaration_inner, entUnitC7,
      DeclarativeRegion.add_declarative_part, DeclarativeRegion.add_items,
      DeclarativeRegion.add, DeclarativeRegion.new, lookupDecl,
      Declaration.declarative_items, DeclarativeItem.new, DeclarativeItem.from_ident,
      DeclarativeItem.with_deferred, duplicateMessage, Message.error, Designator.show,
      constInit, dupMsg]

end Vhdl
